import Mathlib

/-!
Verification of the host-communication and streaming-reassembly layer of a
client-side SDK (microsoft-teams-library-js).  The definitions below are a
shallow embedding of `src/packages/teams-js/src/public/media.ts` and of the
video-frame pipeline exercised by `src/packages/teams-js/test/public/video.spec.ts`.
Machine integers are modelled as `Int`/`Nat`; promise settlement is modelled
explicitly by an `Outcome` state settled at most once; JavaScript `null`/
`undefined` are modelled by `Option` (and, where the two are distinguished,
by dedicated constructors).
-/

namespace TeamsJs

/-- Error codes referenced by `media.ts`.  Modelled from the spec: the
`ErrorCode` enum lives in `public/interfaces.ts`, which is not among the
analyzed sources; only the constructors used by the analyzed code are needed. -/
inductive ErrorCode where
  | NOT_SUPPORTED_ON_PLATFORM
  | INTERNAL_ERROR
  | OLD_PLATFORM
  | INVALID_ARGUMENTS
deriving DecidableEq, Repr

/-- An SdkError value: `{errorCode, message?}` (spec section 6, inbound envelope
error field). -/
structure SdkError where
  errorCode : ErrorCode
  message : Option String := none
deriving DecidableEq, Repr

/-- A media chunk: `{chunk: base64 string, chunkSequence: integer}`
(media.ts, interface `MediaChunk`). -/
structure MediaChunk where
  chunk : String
  chunkSequence : Int
deriving DecidableEq, Repr

/-- Output of the getMedia API from the platform: `{error?, mediaChunk?}`
(media.ts, interface `MediaResult`).  A JavaScript `null`/`undefined` field is
`none`; a present object is `some`. -/
structure MediaResult where
  error : Option SdkError
  mediaChunk : Option MediaChunk
deriving DecidableEq, Repr

/-- A binary blob: its byte content together with a MIME type.  Modelled from
the spec: `Blob` construction happens in `internal/mediaUtil.ts`, which is not
among the analyzed sources; section 4.5 describes it as a binary object. -/
structure Blob where
  content : List Nat
  mimeType : String
deriving DecidableEq, Repr

/-- One accumulated attachment: `{sequence, file}` (media.ts, interface
`AssembleAttachment`). -/
structure AssembleAttachment where
  sequence : Int
  file : Blob
deriving DecidableEq, Repr

/-- Modelled from the spec: `decodeAttachment` lives in `internal/mediaUtil.ts`,
not among the analyzed sources.  Per section 4.5, each inbound chunk's payload
is decoded and tagged by its sequence number.  The base64 decoder itself is an
external parameter `decode`. -/
def decodeAttachment (decode : String → List Nat) (mimeType : String)
    (mediaChunk : MediaChunk) : AssembleAttachment :=
  { sequence := mediaChunk.chunkSequence
    file := { content := decode mediaChunk.chunk, mimeType := mimeType } }

/-- Modelled from the spec: `createFile` lives in `internal/mediaUtil.ts`, not
among the analyzed sources.  Per sections 4.5 and 8, the accumulated
attachments are concatenated into a single binary object in arrival order. -/
def createFile (assembleAttachment : List AssembleAttachment) (mimeType : String) : Blob :=
  { content := (assembleAttachment.map (fun a => a.file.content)).flatten
    mimeType := mimeType }

/-- Settlement state of the promise returned by a getMedia call. -/
inductive Outcome where
  | pending
  | resolved (file : Blob)
  | rejected (e : SdkError)
deriving DecidableEq, Repr

/-- A promise settles at most once: `resolve`/`reject` after the first
settlement are no-ops. -/
def settle (o : Outcome) (n : Outcome) : Outcome :=
  match o with
  | .pending => n
  | _ => o

/-- The rejection value used by both getMedia strategies when data is absent
where it was expected (media.ts lines 153 and 182; the message text keeps the
source's spelling). -/
def internalNullError : SdkError :=
  { errorCode := .INTERNAL_ERROR, message := some "data receieved is null" }

/-- State of one `getMediaViaCallback` call: the `MediaHelper` accumulation
list and the promise outcome. -/
structure GetMediaCallbackState where
  assembleAttachment : List AssembleAttachment
  outcome : Outcome
deriving DecidableEq, Repr

/-- Initial state of a `getMediaViaCallback` call (media.ts lines 143-148). -/
def initCallbackState : GetMediaCallbackState :=
  { assembleAttachment := [], outcome := .pending }

/-- One invocation of the `getMediaViaCallback` response callback
(media.ts lines 149-162).  The branch order mirrors the source: host error
first (`mediaResult && mediaResult.error`), then the null-data check
(`!mediaResult || !mediaResult.mediaChunk`), then the terminal-chunk check
(`chunkSequence <= 0`), else accumulate. -/
def getMediaViaCallbackStep (decode : String → List Nat) (mimeType : String)
    (st : GetMediaCallbackState) (mediaResult : Option MediaResult) :
    GetMediaCallbackState :=
  match mediaResult with
  | none => { st with outcome := settle st.outcome (.rejected internalNullError) }
  | some mr =>
    match mr.error with
    | some e => { st with outcome := settle st.outcome (.rejected e) }
    | none =>
      match mr.mediaChunk with
      | none => { st with outcome := settle st.outcome (.rejected internalNullError) }
      | some c =>
        if c.chunkSequence ≤ 0 then
          { st with outcome := settle st.outcome (.resolved (createFile st.assembleAttachment mimeType)) }
        else
          { st with assembleAttachment := st.assembleAttachment ++ [decodeAttachment decode mimeType c] }

/-- Processing a whole sequence of inbound responses by the callback strategy. -/
def runGetMediaViaCallback (decode : String → List Nat) (mimeType : String)
    (st : GetMediaCallbackState) (events : List (Option MediaResult)) :
    GetMediaCallbackState :=
  events.foldl (getMediaViaCallbackStep decode mimeType) st

/-- State of one `getMediaViaHandler` call: the accumulation list, the promise
outcome, and the push-handler registry (names of registered handlers). -/
structure GetMediaHandlerState where
  assembleAttachment : List AssembleAttachment
  outcome : Outcome
  registry : List String
deriving DecidableEq, Repr

/-- Initial state of a `getMediaViaHandler` call after `registerHandler`
has installed the uniquely-named handler (media.ts lines 166-176). -/
def initHandlerState (actionName : String) : GetMediaHandlerState :=
  { assembleAttachment := [], outcome := .pending
    registry := ["getMedia" ++ actionName] }

/-- Result of one invocation of the `getMediaViaHandler` response handler:
either a new state, or a thrown JavaScript TypeError that aborts the
invocation without settling the promise. -/
inductive HandlerInvokeResult where
  | threw
  | ok (st : GetMediaHandlerState)
deriving DecidableEq, Repr

/-- One invocation of the handler registered by `getMediaViaHandler`
(media.ts lines 176-195).  The argument `mediaResult` is the value produced by
`JSON.parse(response)`; `none` models a response string that parses to `null`.
Line 178 reads `mediaResult.error` before the `!mediaResult` test on line 181,
so a `null` parse result throws a TypeError (the line-181 null test is
unreachable for it); every settling branch also calls `removeHandler`. -/
def getMediaViaHandlerInvoke (decode : String → List Nat) (mimeType : String)
    (actionName : String) (st : GetMediaHandlerState)
    (mediaResult : Option MediaResult) : HandlerInvokeResult :=
  match mediaResult with
  | none => .threw
  | some mr =>
    match mr.error with
    | some e =>
      .ok { st with outcome := settle st.outcome (.rejected e)
                    registry := st.registry.filter (fun n => n != "getMedia" ++ actionName) }
    | none =>
      match mr.mediaChunk with
      | none =>
        .ok { st with outcome := settle st.outcome (.rejected internalNullError)
                      registry := st.registry.filter (fun n => n != "getMedia" ++ actionName) }
      | some c =>
        if c.chunkSequence ≤ 0 then
          .ok { st with outcome := settle st.outcome (.resolved (createFile st.assembleAttachment mimeType))
                        registry := st.registry.filter (fun n => n != "getMedia" ++ actionName) }
        else
          .ok { st with assembleAttachment := st.assembleAttachment ++ [decodeAttachment decode mimeType c] }

/-- The state after one handler invocation: a thrown invocation leaves the
call's state unchanged (the exception propagates out of the handler; no
mutation happened before the throw). -/
def getMediaViaHandlerStep (decode : String → List Nat) (mimeType : String)
    (actionName : String) (st : GetMediaHandlerState)
    (mediaResult : Option MediaResult) : GetMediaHandlerState :=
  match getMediaViaHandlerInvoke decode mimeType actionName st mediaResult with
  | .ok s' => s'
  | .threw => st

/-- Processing a whole sequence of inbound responses by the handler strategy. -/
def runGetMediaViaHandler (decode : String → List Nat) (mimeType : String)
    (actionName : String) (st : GetMediaHandlerState)
    (events : List (Option MediaResult)) : GetMediaHandlerState :=
  events.foldl (getMediaViaHandlerStep decode mimeType actionName) st

/-- A well-formed chunk envelope: no error field, a present media chunk. -/
def mkChunkEvent (c : MediaChunk) : Option MediaResult :=
  some { error := none, mediaChunk := some c }

/-- Frame contexts of the embedded application.  Modelled from the spec: the
`FrameContexts` enum lives in `public/constants.ts`, not among the analyzed
sources; the tests iterate all of its values and `media.ts` names `content`
and `task`. -/
inductive FrameContexts where
  | settings
  | content
  | authentication
  | remove
  | task
  | sidePanel
  | stage
  | meetingStage
deriving DecidableEq, Repr

/-- Host client types referenced by `media.ts`.  Modelled from the spec: the
`HostClientType` enum lives in `public/constants.ts`, not among the analyzed
sources; only the constructors compared against by `media.ts` plus the mobile
clients are needed. -/
inductive HostClientType where
  | desktop
  | web
  | android
  | ios
  | rigel
  | ipados
  | teamsRoomsWindows
  | teamsRoomsAndroid
  | teamsPhones
  | teamsDisplays
deriving DecidableEq, Repr

/-- The platform-version constants `media.ts` gates on (from
`internal/constants.ts`, identified here by name rather than by their version
strings). -/
inductive ApiVersion where
  | captureImageMobileSupportVersion
  | mediaAPISupportVersion
  | getMediaCallbackSupportVersion
  | videoAndImageMediaAPISupportVersion
  | scanBarCodeAPIMobileSupportVersion
deriving DecidableEq, Repr

/-- The synchronously queryable environment a media call observes before any
send: initialization state and current frame context (for
`ensureInitialized`), `GlobalVars.isFramelessWindow`,
`GlobalVars.hostClientType`, and the platform-version capability check
`isAPISupportedByPlatform` (spec section 6, collaborator contract). -/
structure Env where
  initialized : Bool
  frameContext : FrameContexts
  isFramelessWindow : Bool
  hostClientType : HostClientType
  supports : ApiVersion → Bool

/-- Modelled from the spec: `ensureInitialized` lives in
`internal/internalAPIs.ts`, not among the analyzed sources.  It throws unless
the SDK is initialized and the current frame context is one of the expected
contexts (the wrong-context error observed by the tests). -/
def ensureInitializedCheck (env : Env) (expected : List FrameContexts) : Bool :=
  env.initialized && expected.contains env.frameContext

/-- A caller error raised synchronously inside the promise executor: either
the wrong-context/uninitialized error thrown by `ensureInitialized` (a plain
Error, not an SdkError) or a thrown SdkError literal. -/
inductive CallerError where
  | wrongContext
  | sdkErr (e : SdkError)
deriving DecidableEq, Repr

/-- Observable outcome of invoking one media capability API: the function
names of the request envelopes that reached the transport, and whether the
returned promise proceeds or rejects with a caller error. -/
structure OpResult where
  sent : List String
  outcome : Except CallerError Unit
deriving Repr

/-- Caller-error gating of `media.captureImage` (media.ts lines 81-95):
`ensureInitialized(content, task)`, then the frameless-window check, then the
platform-version check, then the send. -/
def captureImage (env : Env) : OpResult :=
  if ¬ ensureInitializedCheck env [.content, .task] then
    { sent := [], outcome := .error .wrongContext }
  else if ¬ env.isFramelessWindow then
    { sent := [], outcome := .error (.sdkErr { errorCode := .NOT_SUPPORTED_ON_PLATFORM }) }
  else if ¬ env.supports .captureImageMobileSupportVersion then
    { sent := [], outcome := .error (.sdkErr { errorCode := .OLD_PLATFORM }) }
  else
    { sent := ["captureImage"], outcome := .ok () }

/-- Caller-error gating of `Media.getMedia` (media.ts lines 124-140).
`inputsValid` is the verdict of `validateGetMediaInputs` (from
`internal/mediaUtil.ts`, not among the analyzed sources) on this call's
mimeType/format/content. -/
def getMediaGate (env : Env) (inputsValid : Bool) : OpResult :=
  if ¬ ensureInitializedCheck env [.content, .task] then
    { sent := [], outcome := .error .wrongContext }
  else if ¬ env.supports .mediaAPISupportVersion then
    { sent := [], outcome := .error (.sdkErr { errorCode := .OLD_PLATFORM }) }
  else if ¬ inputsValid then
    { sent := [], outcome := .error (.sdkErr { errorCode := .INVALID_ARGUMENTS }) }
  else
    { sent := ["getMedia"], outcome := .ok () }

/-- Caller-error gating of `media.selectMedia` (media.ts lines 413-432).
`isVideoAndImage` is the verdict of `isMediaCallForVideoAndImageInputs` and
`inputsValid` the verdict of `validateSelectMediaInputs` (both from
`internal/mediaUtil.ts`, not among the analyzed sources). -/
def selectMedia (env : Env) (isVideoAndImage : Bool) (inputsValid : Bool) : OpResult :=
  if ¬ ensureInitializedCheck env [.content, .task] then
    { sent := [], outcome := .error .wrongContext }
  else if ¬ env.supports .mediaAPISupportVersion then
    { sent := [], outcome := .error (.sdkErr { errorCode := .OLD_PLATFORM }) }
  else if isVideoAndImage ∧ env.hostClientType ≠ .android ∧ env.hostClientType ≠ .ios then
    { sent := [], outcome := .error (.sdkErr { errorCode := .NOT_SUPPORTED_ON_PLATFORM }) }
  else if isVideoAndImage ∧ ¬ env.supports .videoAndImageMediaAPISupportVersion then
    { sent := [], outcome := .error (.sdkErr { errorCode := .OLD_PLATFORM }) }
  else if ¬ inputsValid then
    { sent := [], outcome := .error (.sdkErr { errorCode := .INVALID_ARGUMENTS }) }
  else
    { sent := ["selectMedia"], outcome := .ok () }

/-- Caller-error gating of `media.viewImages` (media.ts lines 451-464).
`inputsValid` is the verdict of `validateViewImagesInput`. -/
def viewImages (env : Env) (inputsValid : Bool) : OpResult :=
  if ¬ ensureInitializedCheck env [.content, .task] then
    { sent := [], outcome := .error .wrongContext }
  else if ¬ env.supports .mediaAPISupportVersion then
    { sent := [], outcome := .error (.sdkErr { errorCode := .OLD_PLATFORM }) }
  else if ¬ inputsValid then
    { sent := [], outcome := .error (.sdkErr { errorCode := .INVALID_ARGUMENTS }) }
  else
    { sent := ["viewImages"], outcome := .ok () }

/-- The host client types on which `media.scanBarCode` is unsupported
(media.ts lines 491-499). -/
def scanBarCodeUnsupportedHosts : List HostClientType :=
  [.desktop, .web, .rigel, .teamsRoomsWindows, .teamsRoomsAndroid, .teamsPhones, .teamsDisplays]

/-- Caller-error gating of `media.scanBarCode` (media.ts lines 487-513).
`inputsValid` is the verdict of `validateScanBarCodeInput`. -/
def scanBarCode (env : Env) (inputsValid : Bool) : OpResult :=
  if ¬ ensureInitializedCheck env [.content, .task] then
    { sent := [], outcome := .error .wrongContext }
  else if env.hostClientType ∈ scanBarCodeUnsupportedHosts then
    { sent := [], outcome := .error (.sdkErr { errorCode := .NOT_SUPPORTED_ON_PLATFORM }) }
  else if ¬ env.supports .scanBarCodeAPIMobileSupportVersion then
    { sent := [], outcome := .error (.sdkErr { errorCode := .OLD_PLATFORM }) }
  else if ¬ inputsValid then
    { sent := [], outcome := .error (.sdkErr { errorCode := .INVALID_ARGUMENTS }) }
  else
    { sent := ["media.scanBarCode"], outcome := .ok () }

/-- A caller error carries one of the three SdkError codes of the taxonomy in
spec section 7 (or is the wrong-context Error). -/
def callerErrorShape : CallerError → Prop
  | .wrongContext => True
  | .sdkErr s =>
    s.errorCode = .NOT_SUPPORTED_ON_PLATFORM ∨ s.errorCode = .OLD_PLATFORM ∨
      s.errorCode = .INVALID_ARGUMENTS

/-- The two transport topologies (spec sections 2 and 4.1).  Both variants
present an identical outward message shape, so the layers above the transport
never branch on the topology. -/
inductive Topology where
  | framed
  | frameless
deriving DecidableEq, Repr

/-- An outbound message handed to the transport: function name and argument
list (spec section 6, outbound envelope; arguments here are the string
payloads the video events carry). -/
structure OutMessage where
  func : String
  args : List String
deriving DecidableEq, Repr

/-- A received video frame `{width, height, data}` (spec section 3; the tests
use `{width:30, height:40, data:101}`). -/
structure VideoFrame where
  width : Int
  height : Int
  data : Int
deriving DecidableEq, Repr

/-- The payload of a `video.newVideoFrame` push event.  JavaScript
distinguishes `undefined` from `null` here, and the dispatch does too, so both
get their own constructor. -/
inductive FramePayload where
  | undef
  | null
  | frame (f : VideoFrame)
deriving DecidableEq, Repr

/-- What the application callback does with one delivered frame: call the
acknowledge function, call the fail function with a message, or signal
nothing. -/
inductive FrameAction where
  | ack
  | fail (msg : String)
  | noSignal
deriving DecidableEq, Repr

/-- Modelled from the spec: `video.ts` is not among the analyzed sources (only
its tests are).  Per section 4.6 and the tests, the `video.newVideoFrame`
handler drops an `undefined` payload without invoking the application callback
and without any outbound event (video.spec.ts lines 272-305); any other
payload — including `null` (video.spec.ts lines 218-270) — is passed to the
callback, whose acknowledge call sends one `video.videoFrameProcessed` event
with no arguments and whose fail call sends one `video.notifyError` event with
the message as its single argument.  The result records whether the callback
was invoked and the outbound events, identical in both topologies. -/
def handleNewVideoFrame (_topology : Topology) (callback : FramePayload → FrameAction)
    (payload : FramePayload) : Bool × List OutMessage :=
  match payload with
  | .undef => (false, [])
  | p =>
    match callback p with
    | .ack => (true, [{ func := "video.videoFrameProcessed", args := [] }])
    | .fail m => (true, [{ func := "video.notifyError", args := [m] }])
    | .noSignal => (true, [])

/-- Observable outcome of invoking one video API: the messages that reached
the transport and whether a wrong-context caller error was thrown. -/
structure VideoOpResult where
  sent : List OutMessage
  contextError : Bool
deriving DecidableEq, Repr

/-- The single frame context in which the video APIs are allowed
(video.spec.ts lines 36, 312, 358). -/
def allowedVideoContexts : List FrameContexts :=
  [.sidePanel]

/-- Modelled from the spec: `video.registerForVideoFrame` (video.ts absent).
Per section 4.6 and the tests, it is restricted to the side-panel context,
enforced before any message is sent; in the allowed context it registers the
`video.newVideoFrame` handler and sends one `video.registerForVideoFrame`
message carrying the frame configuration. -/
def registerForVideoFrame (_topology : Topology) (ctx : FrameContexts)
    (config : String) : VideoOpResult :=
  if ctx ∈ allowedVideoContexts then
    { sent := [{ func := "video.registerForVideoFrame", args := [config] }]
      contextError := false }
  else
    { sent := [], contextError := true }

/-- Modelled from the spec: `video.registerForVideoEffect` (video.ts absent).
Restricted to the side-panel context, enforced before any message is sent; in
the allowed context it only registers the `video.effectParameterChange`
handler and sends nothing to the host. -/
def registerForVideoEffect (_topology : Topology) (ctx : FrameContexts) : VideoOpResult :=
  if ctx ∈ allowedVideoContexts then
    { sent := [], contextError := false }
  else
    { sent := [], contextError := true }

/-- Modelled from the spec: `video.notifySelectedVideoEffectChanged`
(video.ts absent).  Restricted to the side-panel context, enforced before any
message is sent; in the allowed context it sends one
`video.videoEffectChanged` message with the change type and effect id. -/
def notifySelectedVideoEffectChanged (_topology : Topology) (ctx : FrameContexts)
    (effectChangeType : String) (effectId : String) : VideoOpResult :=
  if ctx ∈ allowedVideoContexts then
    { sent := [{ func := "video.videoEffectChanged", args := [effectChangeType, effectId] }]
      contextError := false }
  else
    { sent := [], contextError := true }

/-- A concrete base64 decoder stand-in for evaluating the model: each chunk
payload decodes to the one-element byte list holding its length. -/
def demoDecode : String → List Nat :=
  fun s => [s.length]

/-- An application callback that fails a null frame with the tests' message
and acknowledges everything else (video.spec.ts lines 218-270). -/
def cbNullFail : FramePayload → FrameAction :=
  fun p =>
    match p with
    | .null => .fail "error occurs"
    | _ => .ack

/-- An application callback that acknowledges every frame. -/
def cbAck : FramePayload → FrameAction :=
  fun _ => .ack

/-- An application callback that fails every frame with the message boom. -/
def cbFail : FramePayload → FrameAction :=
  fun _ => .fail "boom"

/-- An environment that is not initialized (every media API must reject with
the wrong-context caller error there). -/
def envUninitialized : Env :=
  { initialized := false, frameContext := .content, isFramelessWindow := true
    hostClientType := .android, supports := fun _ => true }

/-- An initialized, framed-window environment on desktop with full version
support. -/
def envFramedDesktop : Env :=
  { initialized := true, frameContext := .content, isFramelessWindow := false
    hostClientType := .desktop, supports := fun _ => true }

/-! Helper lemmas about promise settlement and chunk accumulation. -/

/-- Settling an already settled outcome is a no-op. -/
theorem settle_of_ne_pending {o : Outcome} (h : o ≠ .pending) (n : Outcome) :
    settle o n = o := by
  cases o with
  | pending => exact absurd rfl h
  | resolved f => rfl
  | rejected e => rfl

/-- The callback step never changes an already settled outcome. -/
theorem getMediaViaCallbackStep_settled (decode : String → List Nat) (mimeType : String)
    {st : GetMediaCallbackState} (h : st.outcome ≠ .pending) (ev : Option MediaResult) :
    (getMediaViaCallbackStep decode mimeType st ev).outcome = st.outcome := by
  rcases ev with _ | ⟨_ | e, _ | c⟩
  · simp [getMediaViaCallbackStep, settle_of_ne_pending h]
  · simp [getMediaViaCallbackStep, settle_of_ne_pending h]
  · by_cases hs : c.chunkSequence ≤ 0 <;>
      simp [getMediaViaCallbackStep, hs, settle_of_ne_pending h]
  · simp [getMediaViaCallbackStep, settle_of_ne_pending h]
  · simp [getMediaViaCallbackStep, settle_of_ne_pending h]

/-- The callback run never changes an already settled outcome. -/
theorem runGetMediaViaCallback_settled (decode : String → List Nat) (mimeType : String)
    (events : List (Option MediaResult)) (st : GetMediaCallbackState)
    (h : st.outcome ≠ .pending) :
    (runGetMediaViaCallback decode mimeType st events).outcome = st.outcome := by
  induction events generalizing st with
  | nil => rfl
  | cons ev evs ih =>
    have h1 := getMediaViaCallbackStep_settled decode mimeType h ev
    have h2 := ih (getMediaViaCallbackStep decode mimeType st ev) (by rw [h1]; exact h)
    calc (runGetMediaViaCallback decode mimeType (getMediaViaCallbackStep decode mimeType st ev) evs).outcome
        = (getMediaViaCallbackStep decode mimeType st ev).outcome := h2
      _ = st.outcome := h1

/-- A positive-sequence well-formed chunk is appended to the accumulation by
the callback step, and nothing else changes. -/
theorem getMediaViaCallbackStep_chunk_pos (decode : String → List Nat) (mimeType : String)
    (st : GetMediaCallbackState) {c : MediaChunk} (h : 0 < c.chunkSequence) :
    getMediaViaCallbackStep decode mimeType st (mkChunkEvent c)
      = { st with assembleAttachment := st.assembleAttachment ++ [decodeAttachment decode mimeType c] } := by
  unfold getMediaViaCallbackStep mkChunkEvent
  simp only []
  rw [if_neg (by omega)]

/-- Running the callback strategy over positive-sequence well-formed chunks
appends their decoded attachments in arrival order and changes nothing else. -/
theorem runGetMediaViaCallback_chunks_pos (decode : String → List Nat) (mimeType : String)
    (pos : List MediaChunk) (h : ∀ c ∈ pos, 0 < c.chunkSequence)
    (st : GetMediaCallbackState) :
    runGetMediaViaCallback decode mimeType st (pos.map mkChunkEvent)
      = { st with assembleAttachment :=
            st.assembleAttachment ++ pos.map (decodeAttachment decode mimeType) } := by
  induction pos generalizing st with
  | nil => simp [runGetMediaViaCallback]
  | cons c cs ih =>
    have hc : 0 < c.chunkSequence := h c (List.mem_cons_self c cs)
    have hcs : ∀ x ∈ cs, 0 < x.chunkSequence := fun x hx => h x (List.mem_cons_of_mem c hx)
    have hstep := getMediaViaCallbackStep_chunk_pos decode mimeType st hc
    calc runGetMediaViaCallback decode mimeType st ((c :: cs).map mkChunkEvent)
        = runGetMediaViaCallback decode mimeType
            (getMediaViaCallbackStep decode mimeType st (mkChunkEvent c)) (cs.map mkChunkEvent) := rfl
      _ = { st with assembleAttachment :=
              st.assembleAttachment ++ (c :: cs).map (decodeAttachment decode mimeType) } := by
          rw [hstep, ih hcs]
          simp

/-- The handler step never changes an already settled outcome. -/
theorem getMediaViaHandlerStep_settled (decode : String → List Nat) (mimeType : String)
    (actionName : String) {st : GetMediaHandlerState} (h : st.outcome ≠ .pending)
    (ev : Option MediaResult) :
    (getMediaViaHandlerStep decode mimeType actionName st ev).outcome = st.outcome := by
  rcases ev with _ | ⟨_ | e, _ | c⟩
  · rfl
  · simp [getMediaViaHandlerStep, getMediaViaHandlerInvoke, settle_of_ne_pending h]
  · by_cases hs : c.chunkSequence ≤ 0 <;>
      simp [getMediaViaHandlerStep, getMediaViaHandlerInvoke, hs, settle_of_ne_pending h]
  · simp [getMediaViaHandlerStep, getMediaViaHandlerInvoke, settle_of_ne_pending h]
  · simp [getMediaViaHandlerStep, getMediaViaHandlerInvoke, settle_of_ne_pending h]

/-- The handler run never changes an already settled outcome. -/
theorem runGetMediaViaHandler_settled (decode : String → List Nat) (mimeType : String)
    (actionName : String) (events : List (Option MediaResult))
    (st : GetMediaHandlerState) (h : st.outcome ≠ .pending) :
    (runGetMediaViaHandler decode mimeType actionName st events).outcome = st.outcome := by
  induction events generalizing st with
  | nil => rfl
  | cons ev evs ih =>
    have h1 := getMediaViaHandlerStep_settled decode mimeType actionName h ev
    have h2 := ih (getMediaViaHandlerStep decode mimeType actionName st ev)
      (by rw [h1]; exact h)
    calc (runGetMediaViaHandler decode mimeType actionName
            (getMediaViaHandlerStep decode mimeType actionName st ev) evs).outcome
        = (getMediaViaHandlerStep decode mimeType actionName st ev).outcome := h2
      _ = st.outcome := h1

/-- A positive-sequence well-formed chunk is appended to the accumulation by
the handler step, and nothing else changes. -/
theorem getMediaViaHandlerStep_chunk_pos (decode : String → List Nat) (mimeType : String)
    (actionName : String) (st : GetMediaHandlerState) {c : MediaChunk}
    (h : 0 < c.chunkSequence) :
    getMediaViaHandlerStep decode mimeType actionName st (mkChunkEvent c)
      = { st with assembleAttachment := st.assembleAttachment ++ [decodeAttachment decode mimeType c] } := by
  unfold getMediaViaHandlerStep getMediaViaHandlerInvoke mkChunkEvent
  simp only []
  rw [if_neg (by omega)]

/-- Running the handler strategy over positive-sequence well-formed chunks
appends their decoded attachments in arrival order and changes nothing else. -/
theorem runGetMediaViaHandler_chunks_pos (decode : String → List Nat) (mimeType : String)
    (actionName : String) (pos : List MediaChunk)
    (h : ∀ c ∈ pos, 0 < c.chunkSequence) (st : GetMediaHandlerState) :
    runGetMediaViaHandler decode mimeType actionName st (pos.map mkChunkEvent)
      = { st with assembleAttachment :=
            st.assembleAttachment ++ pos.map (decodeAttachment decode mimeType) } := by
  induction pos generalizing st with
  | nil => simp [runGetMediaViaHandler]
  | cons c cs ih =>
    have hc : 0 < c.chunkSequence := h c (List.mem_cons_self c cs)
    have hcs : ∀ x ∈ cs, 0 < x.chunkSequence := fun x hx => h x (List.mem_cons_of_mem c hx)
    have hstep := getMediaViaHandlerStep_chunk_pos decode mimeType actionName st hc
    calc runGetMediaViaHandler decode mimeType actionName st ((c :: cs).map mkChunkEvent)
        = runGetMediaViaHandler decode mimeType actionName
            (getMediaViaHandlerStep decode mimeType actionName st (mkChunkEvent c))
            (cs.map mkChunkEvent) := rfl
      _ = { st with assembleAttachment :=
              st.assembleAttachment ++ (c :: cs).map (decodeAttachment decode mimeType) } := by
          rw [hstep, ih hcs]
          simp

/-- A terminal chunk received while pending resolves the callback promise with
the file assembled from the attachments accumulated so far. -/
theorem getMediaViaCallbackStep_terminal (decode : String → List Nat) (mimeType : String)
    (st : GetMediaCallbackState) (hp : st.outcome = .pending) {c : MediaChunk}
    (h : c.chunkSequence ≤ 0) :
    getMediaViaCallbackStep decode mimeType st (mkChunkEvent c)
      = { st with outcome := .resolved (createFile st.assembleAttachment mimeType) } := by
  unfold getMediaViaCallbackStep mkChunkEvent
  simp only []
  rw [if_pos h, hp]
  rfl

/-- A terminal chunk received while pending resolves the handler promise with
the file assembled from the attachments accumulated so far, and removes the
uniquely-named handler. -/
theorem getMediaViaHandlerStep_terminal (decode : String → List Nat) (mimeType : String)
    (actionName : String) (st : GetMediaHandlerState) (hp : st.outcome = .pending)
    {c : MediaChunk} (h : c.chunkSequence ≤ 0) :
    getMediaViaHandlerStep decode mimeType actionName st (mkChunkEvent c)
      = { st with outcome := .resolved (createFile st.assembleAttachment mimeType)
                  registry := st.registry.filter (fun n => n != "getMedia" ++ actionName) } := by
  unfold getMediaViaHandlerStep getMediaViaHandlerInvoke mkChunkEvent
  simp only []
  rw [if_pos h, hp]
  rfl

/-- The callback run decomposes over list append. -/
theorem runGetMediaViaCallback_append (decode : String → List Nat) (mimeType : String)
    (st : GetMediaCallbackState) (l1 l2 : List (Option MediaResult)) :
    runGetMediaViaCallback decode mimeType st (l1 ++ l2)
      = runGetMediaViaCallback decode mimeType
          (runGetMediaViaCallback decode mimeType st l1) l2 := by
  simp [runGetMediaViaCallback, List.foldl_append]

/-- The handler run decomposes over list append. -/
theorem runGetMediaViaHandler_append (decode : String → List Nat) (mimeType : String)
    (actionName : String) (st : GetMediaHandlerState)
    (l1 l2 : List (Option MediaResult)) :
    runGetMediaViaHandler decode mimeType actionName st (l1 ++ l2)
      = runGetMediaViaHandler decode mimeType actionName
          (runGetMediaViaHandler decode mimeType actionName st l1) l2 := by
  simp [runGetMediaViaHandler, List.foldl_append]

/-- An envelope carrying a host error makes the callback step reject with
exactly that error, whatever the mediaChunk field holds. -/
theorem getMediaViaCallbackStep_error (decode : String → List Nat) (mimeType : String)
    (st : GetMediaCallbackState) (e : SdkError) (mc : Option MediaChunk) :
    getMediaViaCallbackStep decode mimeType st (some { error := some e, mediaChunk := mc })
      = { st with outcome := settle st.outcome (.rejected e) } := rfl

/-- An envelope carrying a host error makes the handler invocation reject with
exactly that error and remove the uniquely-named handler, whatever the
mediaChunk field holds. -/
theorem getMediaViaHandlerInvoke_error (decode : String → List Nat) (mimeType : String)
    (actionName : String) (st : GetMediaHandlerState) (e : SdkError)
    (mc : Option MediaChunk) :
    getMediaViaHandlerInvoke decode mimeType actionName st
        (some { error := some e, mediaChunk := mc })
      = .ok { st with outcome := settle st.outcome (.rejected e)
                      registry := st.registry.filter (fun n => n != "getMedia" ++ actionName) } := rfl

/-- Removing a name by filtering leaves no occurrence of it. -/
theorem not_mem_filter_bne (n : String) (l : List String) :
    n ∉ l.filter (fun x => x != n) := by
  simp [List.mem_filter]

/-- The file created from decoded attachments concatenates the decoded chunk
payloads in list order. -/
theorem createFile_decoded (decode : String → List Nat) (mimeType : String)
    (pos : List MediaChunk) :
    createFile (pos.map (decodeAttachment decode mimeType)) mimeType
      = { content := (pos.map (fun c => decode c.chunk)).flatten, mimeType := mimeType } := by
  simp only [createFile, List.map_map]
  rfl

/-- Running the callback strategy from a pending state over positive chunks
followed by one terminal chunk accumulates the positives and resolves with the
file assembled from them; the terminal chunk's payload never enters the
state. -/
theorem runGetMediaViaCallback_pos_terminal (decode : String → List Nat) (mimeType : String)
    (pos : List MediaChunk) (term : MediaChunk)
    (hpos : ∀ c ∈ pos, 0 < c.chunkSequence) (hterm : term.chunkSequence ≤ 0)
    (st : GetMediaCallbackState) (hp : st.outcome = .pending) :
    runGetMediaViaCallback decode mimeType st ((pos ++ [term]).map mkChunkEvent)
      = { assembleAttachment := st.assembleAttachment ++ pos.map (decodeAttachment decode mimeType)
          outcome := .resolved (createFile
            (st.assembleAttachment ++ pos.map (decodeAttachment decode mimeType)) mimeType) } := by
  rw [List.map_append, runGetMediaViaCallback_append,
    runGetMediaViaCallback_chunks_pos decode mimeType pos hpos]
  have hterm' := getMediaViaCallbackStep_terminal decode mimeType
    { st with assembleAttachment :=
      st.assembleAttachment ++ pos.map (decodeAttachment decode mimeType) } hp hterm
  exact hterm'

/-- Running the handler strategy from a pending state over positive chunks
followed by one terminal chunk accumulates the positives, resolves with the
file assembled from them, and removes the uniquely-named handler; the terminal
chunk's payload never enters the state. -/
theorem runGetMediaViaHandler_pos_terminal (decode : String → List Nat) (mimeType : String)
    (actionName : String) (pos : List MediaChunk) (term : MediaChunk)
    (hpos : ∀ c ∈ pos, 0 < c.chunkSequence) (hterm : term.chunkSequence ≤ 0)
    (st : GetMediaHandlerState) (hp : st.outcome = .pending) :
    runGetMediaViaHandler decode mimeType actionName st ((pos ++ [term]).map mkChunkEvent)
      = { assembleAttachment := st.assembleAttachment ++ pos.map (decodeAttachment decode mimeType)
          outcome := .resolved (createFile
            (st.assembleAttachment ++ pos.map (decodeAttachment decode mimeType)) mimeType)
          registry := st.registry.filter (fun n => n != "getMedia" ++ actionName) } := by
  rw [List.map_append, runGetMediaViaHandler_append,
    runGetMediaViaHandler_chunks_pos decode mimeType actionName pos hpos]
  have hterm' := getMediaViaHandlerStep_terminal decode mimeType actionName
    { st with assembleAttachment :=
      st.assembleAttachment ++ pos.map (decodeAttachment decode mimeType) } hp hterm
  exact hterm'

/-! Claim theorems. -/

/-- C1: for every getMedia call, under both the callback strategy and the
named-handler strategy, a run of well-formed chunks whose final chunk has
chunkSequence ≤ 0 completes reassembly: the promise resolves with a blob that
concatenates the decoded payloads of the positive-sequence chunks in arrival
order. -/
theorem getMedia_terminal_chunk_resolves_arrival_order_concat
    (decode : String → List Nat) (mimeType actionName : String)
    (pos : List MediaChunk) (term : MediaChunk)
    (hpos : ∀ c ∈ pos, 0 < c.chunkSequence) (hterm : term.chunkSequence ≤ 0) :
    (runGetMediaViaCallback decode mimeType initCallbackState
        ((pos ++ [term]).map mkChunkEvent)).outcome
      = .resolved { content := (pos.map (fun c => decode c.chunk)).flatten
                    mimeType := mimeType }
    ∧ (runGetMediaViaHandler decode mimeType actionName (initHandlerState actionName)
        ((pos ++ [term]).map mkChunkEvent)).outcome
      = .resolved { content := (pos.map (fun c => decode c.chunk)).flatten
                    mimeType := mimeType } := by
  constructor
  · rw [runGetMediaViaCallback_pos_terminal decode mimeType pos term hpos hterm initCallbackState rfl]
    simp only [initCallbackState, List.nil_append, createFile_decoded]
  · rw [runGetMediaViaHandler_pos_terminal decode mimeType actionName pos term hpos hterm (initHandlerState actionName) rfl]
    simp only [initHandlerState, List.nil_append, createFile_decoded]

/-- C1 witness: chunks with sequence numbers 3, 2, 1, 0 delivered in that
order resolve, under both strategies, with the concatenation of the decoded
payloads in arrival order. -/
theorem getMedia_terminal_chunk_resolves_arrival_order_concat_witness :
    (runGetMediaViaCallback demoDecode "image/jpeg" initCallbackState
        ((([⟨"aaa", 3⟩, ⟨"bb", 2⟩, ⟨"c", 1⟩] : List MediaChunk) ++
          ([⟨"", 0⟩] : List MediaChunk)).map mkChunkEvent)).outcome
      = .resolved { content := [3, 2, 1], mimeType := "image/jpeg" }
    ∧ (runGetMediaViaHandler demoDecode "image/jpeg" "a" (initHandlerState "a")
        ((([⟨"aaa", 3⟩, ⟨"bb", 2⟩, ⟨"c", 1⟩] : List MediaChunk) ++
          ([⟨"", 0⟩] : List MediaChunk)).map mkChunkEvent)).outcome
      = .resolved { content := [3, 2, 1], mimeType := "image/jpeg" } := by
  have h := getMedia_terminal_chunk_resolves_arrival_order_concat demoDecode "image/jpeg" "a"
    ([⟨"aaa", 3⟩, ⟨"bb", 2⟩, ⟨"c", 1⟩] : List MediaChunk) (⟨"", 0⟩ : MediaChunk)
    (by decide) (by decide)
  refine ⟨?_, ?_⟩
  · rw [h.1]; decide
  · rw [h.2]; decide

/-- C3: for every getMedia call, under both strategies, an inbound envelope
carrying a host error field rejects the promise with exactly that error;
whatever arrives afterwards, the promise never resolves — the chunks
accumulated before the error are not salvaged. -/
theorem getMedia_host_error_rejects_without_partial_payload
    (decode : String → List Nat) (mimeType actionName : String)
    (pos : List MediaChunk) (hpos : ∀ c ∈ pos, 0 < c.chunkSequence)
    (e : SdkError) (mc : Option MediaChunk) (rest : List (Option MediaResult)) :
    (runGetMediaViaCallback decode mimeType initCallbackState
        (pos.map mkChunkEvent ++ some { error := some e, mediaChunk := mc } :: rest)).outcome
      = .rejected e
    ∧ (runGetMediaViaHandler decode mimeType actionName (initHandlerState actionName)
        (pos.map mkChunkEvent ++ some { error := some e, mediaChunk := mc } :: rest)).outcome
      = .rejected e := by
  constructor
  · rw [runGetMediaViaCallback_append,
      runGetMediaViaCallback_chunks_pos decode mimeType pos hpos]
    have hstep : (getMediaViaCallbackStep decode mimeType
        { initCallbackState with assembleAttachment :=
            initCallbackState.assembleAttachment ++ pos.map (decodeAttachment decode mimeType) }
        (some { error := some e, mediaChunk := mc })).outcome = .rejected e := by
      rw [getMediaViaCallbackStep_error]
      rfl
    calc (runGetMediaViaCallback decode mimeType _ (some { error := some e, mediaChunk := mc } :: rest)).outcome
        = _ := runGetMediaViaCallback_settled decode mimeType rest _ (by rw [hstep]; simp)
      _ = .rejected e := hstep
  · rw [runGetMediaViaHandler_append,
      runGetMediaViaHandler_chunks_pos decode mimeType actionName pos hpos]
    have hstep : (getMediaViaHandlerStep decode mimeType actionName
        { initHandlerState actionName with assembleAttachment :=
            (initHandlerState actionName).assembleAttachment ++ pos.map (decodeAttachment decode mimeType) }
        (some { error := some e, mediaChunk := mc })).outcome = .rejected e := by
      simp [getMediaViaHandlerStep, getMediaViaHandlerInvoke_error]
      rfl
    calc (runGetMediaViaHandler decode mimeType actionName _ (some { error := some e, mediaChunk := mc } :: rest)).outcome
        = _ := runGetMediaViaHandler_settled decode mimeType actionName rest _ (by rw [hstep]; simp)
      _ = .rejected e := hstep

/-- C3 witness: after one accumulated chunk, a host error rejects with that
error under both strategies even though a terminal chunk follows. -/
theorem getMedia_host_error_rejects_without_partial_payload_witness :
    (runGetMediaViaCallback demoDecode "image/jpeg" initCallbackState
        ([⟨"aa", 1⟩].map mkChunkEvent ++
          some { error := some { errorCode := .OLD_PLATFORM }, mediaChunk := none }
            :: [mkChunkEvent ⟨"x", 0⟩])).outcome
      = .rejected { errorCode := .OLD_PLATFORM }
    ∧ (runGetMediaViaHandler demoDecode "image/jpeg" "a" (initHandlerState "a")
        ([⟨"aa", 1⟩].map mkChunkEvent ++
          some { error := some { errorCode := .OLD_PLATFORM }, mediaChunk := none }
            :: [mkChunkEvent ⟨"x", 0⟩])).outcome
      = .rejected { errorCode := .OLD_PLATFORM } :=
  getMedia_host_error_rejects_without_partial_payload demoDecode "image/jpeg" "a"
    ([⟨"aa", 1⟩] : List MediaChunk) (by decide) { errorCode := .OLD_PLATFORM } none
    [mkChunkEvent ⟨"x", 0⟩]

/-- C9: under both strategies, the terminal chunk's own payload contributes
nothing: the run's final state is the same for any two terminal payloads, and
the accumulation holds exactly the decoded attachments of the
positive-sequence chunks. -/
theorem getMedia_terminal_chunk_payload_ignored
    (decode : String → List Nat) (mimeType actionName : String)
    (pos : List MediaChunk) (hpos : ∀ c ∈ pos, 0 < c.chunkSequence)
    (s : Int) (hs : s ≤ 0) (p1 p2 : String) :
    runGetMediaViaCallback decode mimeType initCallbackState
        ((pos ++ ([⟨p1, s⟩] : List MediaChunk)).map mkChunkEvent)
      = runGetMediaViaCallback decode mimeType initCallbackState
        ((pos ++ ([⟨p2, s⟩] : List MediaChunk)).map mkChunkEvent)
    ∧ runGetMediaViaHandler decode mimeType actionName (initHandlerState actionName)
        ((pos ++ ([⟨p1, s⟩] : List MediaChunk)).map mkChunkEvent)
      = runGetMediaViaHandler decode mimeType actionName (initHandlerState actionName)
        ((pos ++ ([⟨p2, s⟩] : List MediaChunk)).map mkChunkEvent)
    ∧ (runGetMediaViaCallback decode mimeType initCallbackState
        ((pos ++ ([⟨p1, s⟩] : List MediaChunk)).map mkChunkEvent)).assembleAttachment
      = pos.map (decodeAttachment decode mimeType)
    ∧ (runGetMediaViaHandler decode mimeType actionName (initHandlerState actionName)
        ((pos ++ ([⟨p1, s⟩] : List MediaChunk)).map mkChunkEvent)).assembleAttachment
      = pos.map (decodeAttachment decode mimeType) := by
  have hc1 := runGetMediaViaCallback_pos_terminal decode mimeType pos
    (⟨p1, s⟩ : MediaChunk) hpos hs initCallbackState rfl
  have hc2 := runGetMediaViaCallback_pos_terminal decode mimeType pos
    (⟨p2, s⟩ : MediaChunk) hpos hs initCallbackState rfl
  have hh1 := runGetMediaViaHandler_pos_terminal decode mimeType actionName pos
    (⟨p1, s⟩ : MediaChunk) hpos hs (initHandlerState actionName) rfl
  have hh2 := runGetMediaViaHandler_pos_terminal decode mimeType actionName pos
    (⟨p2, s⟩ : MediaChunk) hpos hs (initHandlerState actionName) rfl
  refine ⟨?_, ?_, ?_, ?_⟩
  · rw [hc1, hc2]
  · rw [hh1, hh2]
  · rw [hc1]
    simp [initCallbackState]
  · rw [hh1]
    simp [initHandlerState]

/-- C9 witness: with one positive chunk accumulated, two runs that differ only
in the terminal chunk's payload end in the same state, and the accumulation
holds only the positive chunk's decoded attachment. -/
theorem getMedia_terminal_chunk_payload_ignored_witness :
    runGetMediaViaCallback demoDecode "image/jpeg" initCallbackState
        ((([⟨"p", 1⟩] : List MediaChunk) ++ ([⟨"xyz", 0⟩] : List MediaChunk)).map mkChunkEvent)
      = runGetMediaViaCallback demoDecode "image/jpeg" initCallbackState
        ((([⟨"p", 1⟩] : List MediaChunk) ++ ([⟨"q", 0⟩] : List MediaChunk)).map mkChunkEvent)
    ∧ runGetMediaViaHandler demoDecode "image/jpeg" "a" (initHandlerState "a")
        ((([⟨"p", 1⟩] : List MediaChunk) ++ ([⟨"xyz", 0⟩] : List MediaChunk)).map mkChunkEvent)
      = runGetMediaViaHandler demoDecode "image/jpeg" "a" (initHandlerState "a")
        ((([⟨"p", 1⟩] : List MediaChunk) ++ ([⟨"q", 0⟩] : List MediaChunk)).map mkChunkEvent)
    ∧ (runGetMediaViaCallback demoDecode "image/jpeg" initCallbackState
        ((([⟨"p", 1⟩] : List MediaChunk) ++ ([⟨"xyz", 0⟩] : List MediaChunk)).map mkChunkEvent)).assembleAttachment
      = ([⟨"p", 1⟩] : List MediaChunk).map (decodeAttachment demoDecode "image/jpeg")
    ∧ (runGetMediaViaHandler demoDecode "image/jpeg" "a" (initHandlerState "a")
        ((([⟨"p", 1⟩] : List MediaChunk) ++ ([⟨"xyz", 0⟩] : List MediaChunk)).map mkChunkEvent)).assembleAttachment
      = ([⟨"p", 1⟩] : List MediaChunk).map (decodeAttachment demoDecode "image/jpeg") :=
  getMedia_terminal_chunk_payload_ignored demoDecode "image/jpeg" "a"
    ([⟨"p", 1⟩] : List MediaChunk) (by decide) 0 (by decide) "xyz" "q"

/-- C10: under both strategies, an envelope carrying both a host error and a
null mediaChunk rejects a pending call with the host-reported error, never
with the INTERNAL_ERROR null-data condition — the error check precedes the
null-data check. -/
theorem getMedia_host_error_check_precedes_null_check
    (decode : String → List Nat) (mimeType actionName : String)
    (st : GetMediaCallbackState) (hst : GetMediaHandlerState) (e : SdkError)
    (h1 : st.outcome = .pending) (h2 : hst.outcome = .pending) :
    (getMediaViaCallbackStep decode mimeType st
        (some { error := some e, mediaChunk := none })).outcome = .rejected e
    ∧ ∃ hst', getMediaViaHandlerInvoke decode mimeType actionName hst
          (some { error := some e, mediaChunk := none }) = .ok hst'
        ∧ hst'.outcome = .rejected e := by
  refine ⟨?_, ⟨_, getMediaViaHandlerInvoke_error decode mimeType actionName hst e none, ?_⟩⟩
  · rw [getMediaViaCallbackStep_error]
    simp [h1, settle]
  · simp [h2, settle]

/-- C10 witness: a concrete envelope with a host error and a null mediaChunk
rejects a fresh call with the host error under both strategies. -/
theorem getMedia_host_error_check_precedes_null_check_witness :
    (getMediaViaCallbackStep demoDecode "image/jpeg" initCallbackState
        (some { error := some { errorCode := .NOT_SUPPORTED_ON_PLATFORM }, mediaChunk := none })).outcome
      = .rejected { errorCode := .NOT_SUPPORTED_ON_PLATFORM }
    ∧ ∃ hst', getMediaViaHandlerInvoke demoDecode "image/jpeg" "a" (initHandlerState "a")
          (some { error := some { errorCode := .NOT_SUPPORTED_ON_PLATFORM }, mediaChunk := none }) = .ok hst'
        ∧ hst'.outcome = .rejected { errorCode := .NOT_SUPPORTED_ON_PLATFORM } :=
  getMedia_host_error_check_precedes_null_check demoDecode "image/jpeg" "a"
    initCallbackState (initHandlerState "a") { errorCode := .NOT_SUPPORTED_ON_PLATFORM } rfl rfl

/-- C4: a null mediaChunk rejects a fresh call with the INTERNAL_ERROR
null-data condition under both strategies, and the callback strategy also
rejects a null MediaResult that way; but the handler strategy THROWS on a null
parsed MediaResult (media.ts line 178 reads mediaResult.error before the
line-181 null test), so the promise is never settled there — the claim's
null-MediaResult half fails for getMediaViaHandler. -/
theorem getMedia_null_result_callback_rejects_handler_throws :
    (getMediaViaCallbackStep demoDecode "image/jpeg" initCallbackState none).outcome
      = .rejected internalNullError
    ∧ (getMediaViaCallbackStep demoDecode "image/jpeg" initCallbackState
        (some { error := none, mediaChunk := none })).outcome
      = .rejected internalNullError
    ∧ getMediaViaHandlerInvoke demoDecode "image/jpeg" "a" (initHandlerState "a")
        (some { error := none, mediaChunk := none })
      = .ok { assembleAttachment := [], outcome := .rejected internalNullError, registry := [] }
    ∧ getMediaViaHandlerInvoke demoDecode "image/jpeg" "a" (initHandlerState "a") none
      = .threw
    ∧ internalNullError.errorCode = .INTERNAL_ERROR := by
  refine ⟨rfl, rfl, ?_, rfl, rfl⟩
  decide

/-- C5: the named-handler strategy removes its uniquely-named handler
getMedia+actionName from the registry on every settling invocation — success,
host error, or the internal null-data error — so no registry entry survives
once the call settles. -/
theorem getMediaViaHandler_removes_handler_on_settlement
    (decode : String → List Nat) (mimeType actionName : String)
    (st st' : GetMediaHandlerState) (mr : MediaResult)
    (hpend : st.outcome = .pending)
    (hok : getMediaViaHandlerInvoke decode mimeType actionName st (some mr) = .ok st')
    (hsettled : st'.outcome ≠ .pending) :
    ("getMedia" ++ actionName) ∉ st'.registry := by
  obtain ⟨err, chunk⟩ := mr
  cases err with
  | some e =>
    rw [getMediaViaHandlerInvoke_error] at hok
    injection hok with h
    subst h
    exact not_mem_filter_bne _ _
  | none =>
    cases chunk with
    | none =>
      have heq : getMediaViaHandlerInvoke decode mimeType actionName st
          (some { error := none, mediaChunk := none })
        = .ok { st with outcome := settle st.outcome (.rejected internalNullError)
                        registry := st.registry.filter (fun n => n != "getMedia" ++ actionName) } := rfl
      rw [heq] at hok
      injection hok with h
      subst h
      exact not_mem_filter_bne _ _
    | some c =>
      by_cases hseq : c.chunkSequence ≤ 0
      · have heq : getMediaViaHandlerInvoke decode mimeType actionName st
            (some { error := none, mediaChunk := some c })
          = .ok { st with
              outcome := settle st.outcome (.resolved (createFile st.assembleAttachment mimeType)),
              registry := st.registry.filter (fun n => n != "getMedia" ++ actionName) } := by
          unfold getMediaViaHandlerInvoke
          simp only []
          rw [if_pos hseq]
        rw [heq] at hok
        injection hok with h
        subst h
        exact not_mem_filter_bne _ _
      · have heq : getMediaViaHandlerInvoke decode mimeType actionName st
            (some { error := none, mediaChunk := some c })
          = .ok { st with assembleAttachment :=
              st.assembleAttachment ++ [decodeAttachment decode mimeType c] } := by
          unfold getMediaViaHandlerInvoke
          simp only []
          rw [if_neg hseq]
        rw [heq] at hok
        injection hok with h
        subst h
        exact absurd hpend hsettled

/-- C5 witness: a terminal chunk settles a fresh handler call and the
resulting registry no longer holds the uniquely-named handler. -/
theorem getMediaViaHandler_removes_handler_on_settlement_witness :
    ("getMedia" ++ "a") ∉
      ({ assembleAttachment := [], outcome := .resolved (createFile [] "image/jpeg")
         registry := [] } : GetMediaHandlerState).registry :=
  getMediaViaHandler_removes_handler_on_settlement demoDecode "image/jpeg" "a"
    (initHandlerState "a")
    { assembleAttachment := [], outcome := .resolved (createFile [] "image/jpeg"), registry := [] }
    { error := none, mediaChunk := some { chunk := "", chunkSequence := 0 } }
    rfl (by decide) (by decide)

/-- C2 counterexample: the claim says a null frame payload is dropped with
zero callback invocations and zero outbound events, but delivering a null
payload to a registered callback that fails null frames invokes the callback
and sends one outbound event (exactly the scenario of video.spec.ts lines
218-270). -/
theorem video_null_frame_invokes_callback_counterexample :
    (handleNewVideoFrame .framed cbNullFail .null).1 = true
    ∧ (handleNewVideoFrame .framed cbNullFail .null).2
      = [{ func := "video.notifyError", args := ["error occurs"] }] :=
  ⟨rfl, rfl⟩

/-- C2 amended: only an undefined frame payload is dropped — zero callback
invocations and zero outbound events — while a null payload is delivered to
the application callback like any other payload; this holds for every
registered callback in both topologies. -/
theorem video_undefined_frame_dropped_null_delivered
    (t : Topology) (callback : FramePayload → FrameAction) :
    handleNewVideoFrame t callback .undef = (false, [])
    ∧ (handleNewVideoFrame t callback .null).1 = true := by
  refine ⟨rfl, ?_⟩
  rcases hc : callback .null with _ | m | _ <;>
    simp [handleNewVideoFrame, hc]

/-- C6: for every well-formed frame delivered to a registered callback,
acknowledging produces exactly one outbound frame-processed event with no
arguments, failing with message m produces exactly one outbound frame-error
event with m as its single argument, and the outcome is identical in the
framed and frameless topologies. -/
theorem video_ack_fail_send_exactly_one_event
    (t : Topology) (callback : FramePayload → FrameAction) (f : VideoFrame) (m : String) :
    (callback (.frame f) = .ack →
      handleNewVideoFrame t callback (.frame f)
        = (true, [{ func := "video.videoFrameProcessed", args := [] }]))
    ∧ (callback (.frame f) = .fail m →
      handleNewVideoFrame t callback (.frame f)
        = (true, [{ func := "video.notifyError", args := [m] }]))
    ∧ handleNewVideoFrame .framed callback (.frame f)
        = handleNewVideoFrame .frameless callback (.frame f) := by
  refine ⟨fun h => ?_, fun h => ?_, rfl⟩ <;> simp [handleNewVideoFrame, h]

/-- C6 witness: the tests' frame width 30, height 40, data 101 under an
acknowledging callback yields exactly one frame-processed event with no
arguments, and under a failing callback exactly one frame-error event with
the message boom. -/
theorem video_ack_fail_send_exactly_one_event_witness :
    handleNewVideoFrame .framed cbAck (.frame ⟨30, 40, 101⟩)
      = (true, [{ func := "video.videoFrameProcessed", args := [] }])
    ∧ handleNewVideoFrame .framed cbFail (.frame ⟨30, 40, 101⟩)
      = (true, [{ func := "video.notifyError", args := ["boom"] }]) :=
  ⟨(video_ack_fail_send_exactly_one_event .framed cbAck ⟨30, 40, 101⟩ "boom").1 rfl,
   (video_ack_fail_send_exactly_one_event .framed cbFail ⟨30, 40, 101⟩ "boom").2.1 rfl⟩

/-- C7: in every frame context other than sidePanel, and in both topologies,
registerForVideoFrame, registerForVideoEffect and
notifySelectedVideoEffectChanged raise the wrong-context caller error and
nothing reaches the transport. -/
theorem video_wrong_context_raises_before_send
    (t : Topology) (ctx : FrameContexts) (config ect eid : String)
    (h : ctx ≠ .sidePanel) :
    registerForVideoFrame t ctx config = { sent := [], contextError := true }
    ∧ registerForVideoEffect t ctx = { sent := [], contextError := true }
    ∧ notifySelectedVideoEffectChanged t ctx ect eid = { sent := [], contextError := true } := by
  have hmem : ctx ∉ allowedVideoContexts := by
    simp [allowedVideoContexts, h]
  refine ⟨?_, ?_, ?_⟩ <;>
    simp [registerForVideoFrame, registerForVideoEffect,
      notifySelectedVideoEffectChanged, hmem]

/-- C7 witness: from the content context in the framed topology, all three
video operations raise the caller error with zero transport sends. -/
theorem video_wrong_context_raises_before_send_witness :
    registerForVideoFrame .framed .content "NV12" = { sent := [], contextError := true }
    ∧ registerForVideoEffect .framed .content = { sent := [], contextError := true }
    ∧ notifySelectedVideoEffectChanged .framed .content "EffectChanged" "effectId"
      = { sent := [], contextError := true } :=
  video_wrong_context_raises_before_send .framed .content "NV12" "EffectChanged" "effectId"
    (by decide)

/-- C8: for every media capability operation (captureImage, getMedia,
selectMedia, viewImages, scanBarCode), every caller error rejects the promise
before any message is sent — the transport receives nothing and the error is
the wrong-context Error or an SdkError with code NOT_SUPPORTED_ON_PLATFORM,
OLD_PLATFORM or INVALID_ARGUMENTS — and each gate maps to its code in source
order. -/
theorem media_caller_errors_reject_before_send
    (env : Env) (gmValid smVid smValid viValid sbValid : Bool) :
    (∀ e, (captureImage env).outcome = .error e →
      (captureImage env).sent = [] ∧ callerErrorShape e)
    ∧ (∀ e, (getMediaGate env gmValid).outcome = .error e →
      (getMediaGate env gmValid).sent = [] ∧ callerErrorShape e)
    ∧ (∀ e, (selectMedia env smVid smValid).outcome = .error e →
      (selectMedia env smVid smValid).sent = [] ∧ callerErrorShape e)
    ∧ (∀ e, (viewImages env viValid).outcome = .error e →
      (viewImages env viValid).sent = [] ∧ callerErrorShape e)
    ∧ (∀ e, (scanBarCode env sbValid).outcome = .error e →
      (scanBarCode env sbValid).sent = [] ∧ callerErrorShape e)
    ∧ (ensureInitializedCheck env [.content, .task] = false →
      captureImage env = { sent := [], outcome := .error .wrongContext }
      ∧ getMediaGate env gmValid = { sent := [], outcome := .error .wrongContext }
      ∧ selectMedia env smVid smValid = { sent := [], outcome := .error .wrongContext }
      ∧ viewImages env viValid = { sent := [], outcome := .error .wrongContext }
      ∧ scanBarCode env sbValid = { sent := [], outcome := .error .wrongContext })
    ∧ (ensureInitializedCheck env [.content, .task] = true →
      env.isFramelessWindow = false →
      captureImage env
        = { sent := [], outcome := .error (.sdkErr { errorCode := .NOT_SUPPORTED_ON_PLATFORM }) })
    ∧ (ensureInitializedCheck env [.content, .task] = true →
      env.isFramelessWindow = true →
      env.supports .captureImageMobileSupportVersion = false →
      captureImage env
        = { sent := [], outcome := .error (.sdkErr { errorCode := .OLD_PLATFORM }) })
    ∧ (ensureInitializedCheck env [.content, .task] = true →
      env.supports .mediaAPISupportVersion = false →
      getMediaGate env gmValid
        = { sent := [], outcome := .error (.sdkErr { errorCode := .OLD_PLATFORM }) }
      ∧ selectMedia env smVid smValid
        = { sent := [], outcome := .error (.sdkErr { errorCode := .OLD_PLATFORM }) }
      ∧ viewImages env viValid
        = { sent := [], outcome := .error (.sdkErr { errorCode := .OLD_PLATFORM }) })
    ∧ (ensureInitializedCheck env [.content, .task] = true →
      env.supports .mediaAPISupportVersion = true →
      gmValid = false →
      getMediaGate env gmValid
        = { sent := [], outcome := .error (.sdkErr { errorCode := .INVALID_ARGUMENTS }) })
    ∧ (ensureInitializedCheck env [.content, .task] = true →
      env.supports .mediaAPISupportVersion = true →
      smVid = true → env.hostClientType ≠ .android → env.hostClientType ≠ .ios →
      selectMedia env smVid smValid
        = { sent := [], outcome := .error (.sdkErr { errorCode := .NOT_SUPPORTED_ON_PLATFORM }) })
    ∧ (ensureInitializedCheck env [.content, .task] = true →
      env.supports .mediaAPISupportVersion = true →
      smVid = true → (env.hostClientType = .android ∨ env.hostClientType = .ios) →
      env.supports .videoAndImageMediaAPISupportVersion = false →
      selectMedia env smVid smValid
        = { sent := [], outcome := .error (.sdkErr { errorCode := .OLD_PLATFORM }) })
    ∧ (ensureInitializedCheck env [.content, .task] = true →
      env.supports .mediaAPISupportVersion = true →
      smVid = false → smValid = false →
      selectMedia env smVid smValid
        = { sent := [], outcome := .error (.sdkErr { errorCode := .INVALID_ARGUMENTS }) })
    ∧ (ensureInitializedCheck env [.content, .task] = true →
      env.supports .mediaAPISupportVersion = true →
      viValid = false →
      viewImages env viValid
        = { sent := [], outcome := .error (.sdkErr { errorCode := .INVALID_ARGUMENTS }) })
    ∧ (ensureInitializedCheck env [.content, .task] = true →
      env.hostClientType ∈ scanBarCodeUnsupportedHosts →
      scanBarCode env sbValid
        = { sent := [], outcome := .error (.sdkErr { errorCode := .NOT_SUPPORTED_ON_PLATFORM }) })
    ∧ (ensureInitializedCheck env [.content, .task] = true →
      env.hostClientType ∉ scanBarCodeUnsupportedHosts →
      env.supports .scanBarCodeAPIMobileSupportVersion = false →
      scanBarCode env sbValid
        = { sent := [], outcome := .error (.sdkErr { errorCode := .OLD_PLATFORM }) })
    ∧ (ensureInitializedCheck env [.content, .task] = true →
      env.hostClientType ∉ scanBarCodeUnsupportedHosts →
      env.supports .scanBarCodeAPIMobileSupportVersion = true →
      sbValid = false →
      scanBarCode env sbValid
        = { sent := [], outcome := .error (.sdkErr { errorCode := .INVALID_ARGUMENTS }) }) := by
  refine ⟨?_, ?_, ?_, ?_, ?_, ?_, ?_, ?_, ?_, ?_, ?_, ?_, ?_, ?_, ?_, ?_, ?_⟩
  · intro e h
    unfold captureImage at h ⊢
    split_ifs at h ⊢ <;>
      first
        | (simp_all; done)
        | (injection h with h2; subst h2; exact ⟨rfl, by simp [callerErrorShape]⟩)
  · intro e h
    unfold getMediaGate at h ⊢
    split_ifs at h ⊢ <;>
      first
        | (simp_all; done)
        | (injection h with h2; subst h2; exact ⟨rfl, by simp [callerErrorShape]⟩)
  · intro e h
    unfold selectMedia at h ⊢
    split_ifs at h ⊢ <;>
      first
        | (simp_all; done)
        | (injection h with h2; subst h2; exact ⟨rfl, by simp [callerErrorShape]⟩)
  · intro e h
    unfold viewImages at h ⊢
    split_ifs at h ⊢ <;>
      first
        | (simp_all; done)
        | (injection h with h2; subst h2; exact ⟨rfl, by simp [callerErrorShape]⟩)
  · intro e h
    unfold scanBarCode at h ⊢
    split_ifs at h ⊢ <;>
      first
        | (simp_all; done)
        | (injection h with h2; subst h2; exact ⟨rfl, by simp [callerErrorShape]⟩)
  · intro hCI
    refine ⟨?_, ?_, ?_, ?_, ?_⟩ <;>
      simp [captureImage, getMediaGate, selectMedia, viewImages, scanBarCode, hCI]
  · intro hCI hfl
    simp [captureImage, hCI, hfl]
  · intro hCI hfl hsup
    simp [captureImage, hCI, hfl, hsup]
  · intro hCI hsup
    refine ⟨?_, ?_, ?_⟩ <;> simp [getMediaGate, selectMedia, viewImages, hCI, hsup]
  · intro hCI hsup hv
    simp [getMediaGate, hCI, hsup, hv]
  · intro hCI hsup hsv ha hi
    simp [selectMedia, hCI, hsup, hsv, ha, hi]
  · intro hCI hsup hsv hmob hvsup
    rcases hmob with h | h <;> simp [selectMedia, hCI, hsup, hsv, h, hvsup]
  · intro hCI hsup hsv hv
    simp [selectMedia, hCI, hsup, hsv, hv]
  · intro hCI hsup hv
    simp [viewImages, hCI, hsup, hv]
  · intro hCI hmem
    simp [scanBarCode, hCI, hmem]
  · intro hCI hmem hsup
    simp [scanBarCode, hCI, hmem, hsup]
  · intro hCI hmem hsup hv
    simp [scanBarCode, hCI, hmem, hsup, hv]

/-- C8 witness: concrete environments exercising the wrong-context error, the
frameless-window and host-type NOT_SUPPORTED_ON_PLATFORM errors, and the
INVALID_ARGUMENTS error, each with zero transport sends. -/
theorem media_caller_errors_reject_before_send_witness :
    captureImage envUninitialized = { sent := [], outcome := .error .wrongContext }
    ∧ captureImage envFramedDesktop
      = { sent := [], outcome := .error (.sdkErr { errorCode := .NOT_SUPPORTED_ON_PLATFORM }) }
    ∧ scanBarCode envFramedDesktop true
      = { sent := [], outcome := .error (.sdkErr { errorCode := .NOT_SUPPORTED_ON_PLATFORM }) }
    ∧ getMediaGate envFramedDesktop false
      = { sent := [], outcome := .error (.sdkErr { errorCode := .INVALID_ARGUMENTS }) } := by
  have h1 := media_caller_errors_reject_before_send envUninitialized true true true true true
  have h2 := media_caller_errors_reject_before_send envFramedDesktop false true true true true
  obtain ⟨-, -, -, -, -, hw, -⟩ := h1
  obtain ⟨-, -, -, -, -, -, hcap, -, -, hgm, -, -, -, -, hsb, -⟩ := h2
  exact ⟨(hw rfl).1, hcap rfl rfl, hsb rfl (by decide), hgm rfl rfl rfl⟩

end TeamsJs

